import Mathlib

/-!
# Formal model of the FuelWise route-optimization core

Shallow embedding of `routing/services.py` (class `RouteOptimizer`) and the
`FuelStation.location_tuple` property of `routing/models.py`, over exact
rationals (the Python code computes with binary floats; every concrete value
appearing in the claims is exactly representable, and the algorithmic
structure — filters, comparisons, greedy selection — is float-agnostic).

The great-circle distance `haversine_distance` is built from transcendental
functions (`sin`, `cos`, `asin`, `sqrt`) that have no executable rational
embedding; every function that calls it therefore takes the distance function
as an explicit parameter `hDist : ℚ → ℚ → ℚ → ℚ → ℚ` standing for
`haversine_distance lat1 lon1 lat2 lon2`.  No property verified here depends
on the values of `hDist`, only on how the code uses them.
-/

/-- Vehicle constant `VEHICLE_RANGE = 500` miles (`services.py` line 32). -/
def VEHICLE_RANGE : ℚ := 500

/-- Vehicle constant `MPG = 10` miles per gallon (`services.py` line 33). -/
def MPG : ℚ := 10

/-- Vehicle constant `TANK_SIZE = VEHICLE_RANGE / MPG = 50` gallons
(`services.py` line 34). -/
def TANK_SIZE : ℚ := VEHICLE_RANGE / MPG

/-- Search parameter `SEARCH_CORRIDOR_WIDTH = 25` miles (`services.py` line 37). -/
def SEARCH_CORRIDOR_WIDTH : ℚ := 25

/-- Search parameter `LOOKAHEAD_DISTANCE = 100` miles (`services.py` line 38);
declared by the code but never read by the algorithm. -/
def LOOKAHEAD_DISTANCE : ℚ := 100

/-- One entry of `route_data['segments']`: a dict with `start`/`end`
coordinate dicts and a per-segment `distance` (the code reads it as
`segment.get('distance', 0)`; a missing key is modelled as length 0 supplied
at construction). -/
structure RouteSegment where
  startLat : ℚ
  startLng : ℚ
  endLat : ℚ
  endLng : ℚ
  length : ℚ
deriving DecidableEq

/-- The fields of `routing/models.py`'s `FuelStation` that the optimizer
reads: nullable coordinates and the unit price.  The string metadata columns
(name, address, city, state) and timestamps are never read by the
optimization core and are omitted. -/
structure FuelStation where
  opis_id : ℕ
  latitude : Option ℚ
  longitude : Option ℚ
  retail_price : ℚ
deriving DecidableEq

/-- Embedding of `FuelStation.location_tuple` (`models.py` lines 55-60):
`if self.latitude and self.longitude: return (float(lat), float(lng))` else
`None`.  Python truthiness makes both `None` and `Decimal("0")` falsy, so a
coordinate that is null *or exactly zero* yields `None`. -/
def FuelStation.location_tuple (st : FuelStation) : Option (ℚ × ℚ) :=
  match st.latitude, st.longitude with
  | some la, some ln => if la ≠ 0 ∧ ln ≠ 0 then some (la, ln) else none
  | _, _ => none

/-- The candidate dict built in `select_optimal_stops` (lines 216-225):
`{'station': …, 'distance': distance_along, 'lat': …, 'lng': …}`. -/
structure CandidateStation where
  station : FuelStation
  distance : ℚ
  lat : ℚ
  lng : ℚ
deriving DecidableEq

/-- The fuel-stop dict appended in `select_optimal_stops` (lines 279-286). -/
structure FuelStop where
  station : FuelStation
  distance_from_start : ℚ
  distance_from_previous : ℚ
  fuel_needed : ℚ
  cost : ℚ
  stopLat : ℚ
  stopLng : ℚ
deriving DecidableEq

/-- The dict returned by `optimize` (lines 319-325). -/
structure OptimizationResult where
  fuel_stops : List FuelStop
  total_fuel_cost : ℚ
  total_fuel_needed : ℚ
  num_fuel_stops : ℕ
  computation_time : ℚ
deriving DecidableEq

/-- Everything of an `OptimizationResult` except the wall-clock diagnostic
`computation_time`. -/
def stripTime (r : OptimizationResult) : List FuelStop × ℚ × ℚ × ℕ :=
  (r.fuel_stops, r.total_fuel_cost, r.total_fuel_needed, r.num_fuel_stops)

/-- Embedding of `get_distance_along_route` (lines 76-122): walk the segments tracking the
minimum endpoint distance seen so far (`min_distance`, initially `inf`,
modelled as `none`), the recorded position `best_segment_distance`, and the
`cumulative_distance`.  Returns the recorded position. -/
def get_distance_along_route (hDist : ℚ → ℚ → ℚ → ℚ → ℚ)
    (segments : List RouteSegment) (pLat pLng : ℚ) : ℚ :=
  let step := fun (st : Option ℚ × ℚ × ℚ) (seg : RouteSegment) =>
    let (minDistance, best, cumulative) := st
    let distToStart := hDist pLat pLng seg.startLat seg.startLng
    let distToEnd := hDist pLat pLng seg.endLat seg.endLng
    let segDist := min distToStart distToEnd
    let isNewMin := match minDistance with
      | none => true
      | some m => decide (segDist < m)
    let st' :=
      if isNewMin then
        (some segDist,
         if distToStart < distToEnd then cumulative else cumulative + seg.length,
         cumulative + seg.length)
      else (minDistance, best, cumulative + seg.length)
    st'
  (segments.foldl step (none, 0, 0)).2.1

/-- The per-segment bounding-box test inside `is_near_route` (lines 140-146):
the segment's axis-aligned box expanded by the fixed constant `0.4` degrees
on every side (the code's comment reads `# ~25 miles`). -/
def segBBoxPass (seg : RouteSegment) (lat lng : ℚ) : Bool :=
  let minLat := min seg.startLat seg.endLat - 2/5
  let maxLat := max seg.startLat seg.endLat + 2/5
  let minLng := min seg.startLng seg.endLng - 2/5
  let maxLng := max seg.startLng seg.endLng + 2/5
  decide (minLat ≤ lat) && decide (lat ≤ maxLat) &&
    decide (minLng ≤ lng) && decide (lng ≤ maxLng)

/-- Embedding of `is_near_route` (lines 124-155): for each segment, `continue` unless the
bounding box passes, then accept when the minimum haversine distance to the
segment's two endpoints is at most `SEARCH_CORRIDOR_WIDTH`; `return False`
after the loop.  The loop with early `return True` is `List.any`. -/
def is_near_route (hDist : ℚ → ℚ → ℚ → ℚ → ℚ)
    (segments : List RouteSegment) (lat lng : ℚ) : Bool :=
  segments.any fun seg =>
    segBBoxPass seg lat lng &&
      decide (min (hDist lat lng seg.startLat seg.startLng)
                  (hDist lat lng seg.endLat seg.endLng) ≤ SEARCH_CORRIDOR_WIDTH)

/-- Modelled from the spec (section 4.2, also claim C6): the bounding-box
pre-filter is described as expanding the segment box by
`corridorWidthMiles/69` degrees in latitude and `corridorWidthMiles/54`
degrees in longitude.  The code under `src/` uses the fixed `0.4` of
`segBBoxPass` instead; this definition exists to compare the two. -/
def segBBoxPassSpec (corridorWidth : ℚ) (seg : RouteSegment) (lat lng : ℚ) : Bool :=
  let minLat := min seg.startLat seg.endLat - corridorWidth / 69
  let maxLat := max seg.startLat seg.endLat + corridorWidth / 69
  let minLng := min seg.startLng seg.endLng - corridorWidth / 54
  let maxLng := max seg.startLng seg.endLng + corridorWidth / 54
  decide (minLat ≤ lat) && decide (lat ≤ maxLat) &&
    decide (minLng ≤ lng) && decide (lng ≤ maxLng)

/-- Modelled from the spec: `isNearRoute` as the spec describes it, with the
per-mile bounding-box conversions of `segBBoxPassSpec` in place of the
code's fixed `0.4` degrees. -/
def is_near_route_spec (corridorWidth : ℚ) (hDist : ℚ → ℚ → ℚ → ℚ → ℚ)
    (segments : List RouteSegment) (lat lng : ℚ) : Bool :=
  segments.any fun seg =>
    segBBoxPassSpec corridorWidth seg lat lng &&
      decide (min (hDist lat lng seg.startLat seg.startLng)
                  (hDist lat lng seg.endLat seg.endLng) ≤ corridorWidth)

/-- The flattened `all_coords` list of `get_candidate_stations`
(lines 166-169): start and end coordinates of every segment, in order. -/
def allCoords (segments : List RouteSegment) : List (ℚ × ℚ) :=
  segments.foldr
    (fun seg acc => (seg.startLat, seg.startLng) :: (seg.endLat, seg.endLng) :: acc) []

/-- The whole-route query box of `get_candidate_stations` (lines 171-174):
minima and maxima of all endpoint coordinates, each expanded by the fixed
buffer `0.5` degrees.  Python's `min()`/`max()` raise `ValueError` on an
empty sequence, modelled by `none`. -/
def routeQueryBox (segments : List RouteSegment) : Option (ℚ × ℚ × ℚ × ℚ) :=
  match allCoords segments with
  | [] => none
  | c :: cs =>
    some ((cs.map Prod.fst).foldl min c.1 - 1/2,
          (cs.map Prod.fst).foldl max c.1 + 1/2,
          (cs.map Prod.snd).foldl min c.2 - 1/2,
          (cs.map Prod.snd).foldl max c.2 + 1/2)

/-- Modelled from the spec (section 4.3, also claim C7): the query box is
described as expanded by a buffer of
`max(0.5, 10% of the latitude span, 10% of the longitude span) + 0.5`
degrees.  The code under `src/` uses the fixed `0.5` of `routeQueryBox`
instead; this definition exists to compare the two. -/
def routeQueryBoxSpec (segments : List RouteSegment) : Option (ℚ × ℚ × ℚ × ℚ) :=
  match allCoords segments with
  | [] => none
  | c :: cs =>
    let minLat := (cs.map Prod.fst).foldl min c.1
    let maxLat := (cs.map Prod.fst).foldl max c.1
    let minLng := (cs.map Prod.snd).foldl min c.2
    let maxLng := (cs.map Prod.snd).foldl max c.2
    let buffer := max (max (1/2) ((maxLat - minLat) / 10)) ((maxLng - minLng) / 10) + 1/2
    some (minLat - buffer, maxLat + buffer, minLng - buffer, maxLng + buffer)

/-- The Django queryset filter of `get_candidate_stations` (lines 177-184):
both coordinates non-null and inside the closed query box. -/
def stationInQueryBox (st : FuelStation) (minLat maxLat minLng maxLng : ℚ) : Bool :=
  match st.latitude, st.longitude with
  | some la, some ln =>
    decide (minLat ≤ la) && decide (la ≤ maxLat) &&
      decide (minLng ≤ ln) && decide (ln ≤ maxLng)
  | _, _ => false

/-- Embedding of `get_candidate_stations` (lines 157-195): coarse query-box filter, then
the fine filter `if station.location_tuple: … if is_near_route(lat,lng)`.
`none` models the `ValueError` Python raises computing the box of a route
with no segments. -/
def get_candidate_stations (hDist : ℚ → ℚ → ℚ → ℚ → ℚ)
    (segments : List RouteSegment) (stations : List FuelStation) :
    Option (List FuelStation) :=
  match routeQueryBox segments with
  | none => none
  | some (minLat, maxLat, minLng, maxLng) =>
    let boxed := stations.filter fun st => stationInQueryBox st minLat maxLat minLng maxLng
    some (boxed.filter fun st =>
      match st.location_tuple with
      | some (la, ln) => is_near_route hDist segments la ln
      | none => false)

/-- The `reachable` comprehension of `select_optimal_stops` (lines 243-246):
candidates with `current_position < distance <= max_reachable`. -/
def reachableStations (cands : List CandidateStation) (pos maxReachable : ℚ) :
    List CandidateStation :=
  cands.filter fun s => decide (pos < s.distance) && decide (s.distance ≤ maxReachable)

/-- The `optimal_range_stations` comprehension (lines 259-262): reachable
candidates with `optimal_min <= distance <= optimal_max`. -/
def optimalRangeStations (reachable : List CandidateStation)
    (optimalMin optimalMax : ℚ) : List CandidateStation :=
  reachable.filter fun s => decide (optimalMin ≤ s.distance) && decide (s.distance ≤ optimalMax)

/-- Python's `min(…, key=f)`: the first element attaining the minimal key
(`min` replaces its running best only on a strictly smaller key). -/
def minByKey (f : CandidateStation → ℚ) : List CandidateStation → Option CandidateStation
  | [] => none
  | x :: xs =>
    match minByKey f xs with
    | none => some x
    | some m => if f x ≤ f m then some x else some m

/-- Lines 265-270: `best_station = min(optimal_range_stations, key=price)` when
that list is non-empty, else `min(reachable, key=price)`.  (`minByKey` returns
`none` exactly on the empty list, so the `match` mirrors the `if`.) -/
def chooseBest (reachable optimalRange : List CandidateStation) :
    Option CandidateStation :=
  match minByKey (fun s => s.station.retail_price) optimalRange with
  | some b => some b
  | none => minByKey (fun s => s.station.retail_price) reachable

/-- Lines 272-286: fuel accounting and the emitted stop dict for a chosen
station, from position `pos` with `fuel` gallons in the tank. -/
def mkStop (best : CandidateStation) (pos fuel : ℚ) : FuelStop :=
  let distanceToStation := best.distance - pos
  let fuelUsed := distanceToStation / MPG
  let fuelAtStation := fuel - fuelUsed
  let fuelToBuy := TANK_SIZE - fuelAtStation
  { station := best.station
    distance_from_start := best.distance
    distance_from_previous := distanceToStation
    fuel_needed := fuelToBuy
    cost := best.station.retail_price * fuelToBuy
    stopLat := best.lat
    stopLng := best.lng }

/-- One iteration of the `while` loop of `select_optimal_stops`
(lines 234-290).  `none` is every way the loop ends: `position ≥ total`
(the `while` guard), destination reachable (line 240 `break`), or no
reachable station (line 252 `break`).  `some (stop, pos', fuel')` is an
iteration that appends `stop` and continues from `pos'` with `fuel'`. -/
def selectStep (cands : List CandidateStation) (total pos fuel : ℚ) :
    Option (FuelStop × ℚ × ℚ) :=
  if total ≤ pos then none
  else
    let maxReachable := pos + fuel * MPG
    if total ≤ maxReachable then none
    else
      let reachable := reachableStations cands pos maxReachable
      if reachable.isEmpty then none
      else
        let optimalMin := pos + VEHICLE_RANGE * (6/10)
        let optimalMax := pos + VEHICLE_RANGE * (9/10)
        (chooseBest reachable (optimalRangeStations reachable optimalMin optimalMax)).map
          fun best => (mkStop best pos fuel, best.distance, TANK_SIZE)

/-- The `while` loop of `select_optimal_stops`, run for at most `n`
iterations.  Each iteration strictly advances the position past at least one
candidate, so `cands.length + 1` iterations always reach a loop exit; the
stabilisation theorem for claim C5 proves any larger bound gives the same
result, i.e. the bounded recursion computes the loop's true result. -/
def selectLoopAux (cands : List CandidateStation) (total : ℚ) :
    ℕ → ℚ → ℚ → List FuelStop
  | 0, _, _ => []
  | n + 1, pos, fuel =>
    match selectStep cands total pos fuel with
    | none => []
    | some (stop, pos', fuel') => stop :: selectLoopAux cands total n pos' fuel'

/-- Line 228: `stations_with_distance.sort(key=lambda x: x['distance'])` —
Python's stable sort by the distance key alone.  `List.insertionSort` with
this relation is stable in the same sense. -/
def sortByDistance (cands : List CandidateStation) : List CandidateStation :=
  List.insertionSort (fun a b => a.distance ≤ b.distance) cands

/-- Core of `select_optimal_stops` from the point where every candidate carries its
distance along the route (lines 227-293): sort by distance, then run the
greedy loop from position 0 with a full tank. -/
def selectStops (cands : List CandidateStation) (total : ℚ) : List FuelStop :=
  let sorted := sortByDistance cands
  selectLoopAux sorted total (sorted.length + 1) 0 TANK_SIZE

/-- The annotation step of `select_optimal_stops` (lines 216-225): unpack
`station.location_tuple` and compute the distance along the route.  Every
caller passes stations whose `location_tuple` is set (they survived the
fine filter of `get_candidate_stations`); the `none` branch, where Python
would raise on the unpacking, is unreachable in the pipeline. -/
def annotateStation (hDist : ℚ → ℚ → ℚ → ℚ → ℚ)
    (segments : List RouteSegment) (st : FuelStation) : CandidateStation :=
  match st.location_tuple with
  | some (la, ln) =>
    { station := st, distance := get_distance_along_route hDist segments la ln,
      lat := la, lng := ln }
  | none => { station := st, distance := 0, lat := 0, lng := 0 }

/-- Embedding of `select_optimal_stops` (lines 197-293) in full: annotate, sort, loop. -/
def select_optimal_stops (hDist : ℚ → ℚ → ℚ → ℚ → ℚ)
    (segments : List RouteSegment) (total : ℚ)
    (candidates : List FuelStation) : List FuelStop :=
  selectStops (candidates.map (annotateStation hDist segments)) total

/-- Embedding of `optimize` (lines 295-325).  The two wall-clock reads `start_time` and
`end_time` are passed in as the only impure inputs; `computation_time` is
their difference.  `Except.error` carries the `ValueError` messages Python
raises: the empty-route `min()` failure and the explicit
`"No fuel stations found near route"` of line 308. -/
def optimize (hDist : ℚ → ℚ → ℚ → ℚ → ℚ)
    (segments : List RouteSegment) (totalDistance : ℚ)
    (stations : List FuelStation) (startTime endTime : ℚ) :
    Except String OptimizationResult :=
  match get_candidate_stations hDist segments stations with
  | none => .error "min() arg is an empty sequence"
  | some candidates =>
    if candidates.isEmpty then .error "No fuel stations found near route"
    else
      let fuelStops := select_optimal_stops hDist segments totalDistance candidates
      let totalCost := (fuelStops.map (fun s => s.cost)).sum
      .ok { fuel_stops := fuelStops
            total_fuel_cost := totalCost
            total_fuel_needed := totalDistance / MPG
            num_fuel_stops := fuelStops.length
            computation_time := endTime - startTime }

/-- The loop measure: how many candidates still lie strictly ahead of the
current position. -/
def aheadCount (cands : List CandidateStation) (pos : ℚ) : ℕ :=
  (cands.filter fun s => decide (pos < s.distance)).length

/-- The function `minByKey` returns `none` exactly on the empty list. -/
lemma minByKey_eq_none_iff (f : CandidateStation → ℚ) (l : List CandidateStation) :
    minByKey f l = none ↔ l = [] := by
  cases l with
  | nil => simp [minByKey]
  | cons x xs =>
    cases hm : minByKey f xs with
    | none => simp [minByKey, hm]
    | some m =>
      simp only [minByKey, hm]
      split <;> simp

/-- The function `minByKey` returns an element of its argument. -/
lemma minByKey_mem {f : CandidateStation → ℚ} :
    ∀ {l : List CandidateStation} {c : CandidateStation},
      minByKey f l = some c → c ∈ l := by
  intro l
  induction l with
  | nil => intro c h; simp [minByKey] at h
  | cons x xs ih =>
    intro c h
    cases hm : minByKey f xs with
    | none =>
      simp only [minByKey, hm, Option.some.injEq] at h
      simp [h]
    | some m =>
      simp only [minByKey, hm] at h
      split_ifs at h <;> simp only [Option.some.injEq] at h
      · simp [h]
      · exact List.mem_cons_of_mem x (h ▸ ih hm)

/-- The element `minByKey` returns attains the minimal key. -/
lemma minByKey_le {f : CandidateStation → ℚ} :
    ∀ {l : List CandidateStation} {c : CandidateStation},
      minByKey f l = some c → ∀ s ∈ l, f c ≤ f s := by
  intro l
  induction l with
  | nil => intro c h; simp [minByKey] at h
  | cons x xs ih =>
    intro c h s hs
    cases hm : minByKey f xs with
    | none =>
      have hxs : xs = [] := (minByKey_eq_none_iff f xs).1 hm
      subst hxs
      simp only [minByKey, Option.some.injEq] at h
      subst h
      rcases List.mem_cons.1 hs with rfl | hs'
      · exact le_refl _
      · exact absurd hs' (List.not_mem_nil s)
    | some m =>
      simp only [minByKey, hm] at h
      rcases List.mem_cons.1 hs with rfl | hs'
      · split_ifs at h with hle <;> simp only [Option.some.injEq] at h
        · exact h ▸ le_refl _
        · exact h ▸ le_of_not_le hle
      · split_ifs at h with hle <;> simp only [Option.some.injEq] at h
        · exact h ▸ le_trans hle (ih hm s hs')
        · exact h ▸ ih hm s hs'

/-- On a list sorted (pairwise) by distance, `minByKey` breaks key ties in
favour of the earliest element, hence the one with the smallest distance. -/
lemma minByKey_tie {f : CandidateStation → ℚ} :
    ∀ {l : List CandidateStation} {c : CandidateStation},
      l.Pairwise (fun a b => a.distance ≤ b.distance) →
      minByKey f l = some c → ∀ s ∈ l, f s = f c → c.distance ≤ s.distance := by
  intro l
  induction l with
  | nil => intro c _ h; simp [minByKey] at h
  | cons x xs ih =>
    intro c hpw h s hs hkey
    have hxle := (List.pairwise_cons.1 hpw).1
    have hpw' := (List.pairwise_cons.1 hpw).2
    cases hm : minByKey f xs with
    | none =>
      have hxs : xs = [] := (minByKey_eq_none_iff f xs).1 hm
      subst hxs
      simp only [minByKey, Option.some.injEq] at h
      subst h
      rcases List.mem_cons.1 hs with rfl | hs'
      · exact le_refl _
      · exact absurd hs' (List.not_mem_nil s)
    | some m =>
      simp only [minByKey, hm] at h
      split_ifs at h with hle <;> simp only [Option.some.injEq] at h
      · subst h
        rcases List.mem_cons.1 hs with rfl | hs'
        · exact le_refl _
        · exact hxle s hs'
      · subst h
        rcases List.mem_cons.1 hs with rfl | hs'
        · exact absurd (le_of_eq hkey) hle
        · exact ih hpw' hm s hs' hkey

/-- Membership in the `reachable` comprehension unpacked. -/
lemma mem_reachableStations {cands : List CandidateStation} {pos maxR : ℚ}
    {s : CandidateStation} :
    s ∈ reachableStations cands pos maxR ↔
      s ∈ cands ∧ pos < s.distance ∧ s.distance ≤ maxR := by
  simp [reachableStations, List.mem_filter, and_assoc]

/-- The function `chooseBest` picks from one of its two pools. -/
lemma chooseBest_mem {reachable optimalRange : List CandidateStation}
    {b : CandidateStation} (h : chooseBest reachable optimalRange = some b) :
    b ∈ optimalRange ∨ b ∈ reachable := by
  unfold chooseBest at h
  cases hm : minByKey (fun s => s.station.retail_price) optimalRange with
  | none => rw [hm] at h; exact Or.inr (minByKey_mem h)
  | some m =>
    rw [hm] at h
    simp only [Option.some.injEq] at h
    exact Or.inl (h ▸ minByKey_mem hm)

/-- A successful `selectStep` emits the stop of some reachable candidate `b`,
moves the position to `b`'s distance, and refills the tank. -/
lemma selectStep_eq_some {cands : List CandidateStation} {total pos fuel : ℚ}
    {stop : FuelStop} {pos' fuel' : ℚ}
    (h : selectStep cands total pos fuel = some (stop, pos', fuel')) :
    ∃ b ∈ reachableStations cands pos (pos + fuel * MPG),
      stop = mkStop b pos fuel ∧ pos' = b.distance ∧ fuel' = TANK_SIZE := by
  simp only [selectStep] at h
  split_ifs at h with h1 h2 h3
  rw [Option.map_eq_some'] at h
  obtain ⟨best, hcb, hout⟩ := h
  simp only [Prod.mk.injEq] at hout
  obtain ⟨hstop, hpos, hfuel⟩ := hout
  refine ⟨best, ?_, hstop.symm, hpos.symm, hfuel.symm⟩
  rcases chooseBest_mem hcb with hin | hin
  · exact List.mem_of_mem_filter hin
  · exact hin

/-- A successful `selectStep` strictly advances the position, to the distance
of the emitted stop. -/
lemma selectStep_advance {cands : List CandidateStation} {total pos fuel : ℚ}
    {stop : FuelStop} {pos' fuel' : ℚ}
    (h : selectStep cands total pos fuel = some (stop, pos', fuel')) :
    pos < pos' ∧ stop.distance_from_start = pos' := by
  obtain ⟨b, hb, hstop, hpos, _⟩ := selectStep_eq_some h
  refine ⟨hpos ▸ (mem_reachableStations.1 hb).2.1, ?_⟩
  rw [hstop, hpos]
  rfl

/-- A pointwise-weaker Boolean predicate keeps the filtered list no longer. -/
lemma length_filter_le_of_imp {α : Type} {p q : α → Bool}
    (himp : ∀ a, q a = true → p a = true) :
    ∀ l : List α, (l.filter q).length ≤ (l.filter p).length := by
  intro l
  induction l with
  | nil => simp
  | cons x xs ih =>
    by_cases hq : q x = true
    · rw [List.filter_cons_of_pos hq, List.filter_cons_of_pos (himp x hq)]
      exact Nat.succ_le_succ ih
    · rw [List.filter_cons_of_neg hq]
      by_cases hp : p x = true
      · rw [List.filter_cons_of_pos hp]
        exact Nat.le_succ_of_le ih
      · rw [List.filter_cons_of_neg hp]
        exact ih

/-- If additionally some member satisfies `p` but not `q`, the `q`-filtered
list is strictly shorter. -/
lemma length_filter_lt_of_imp {α : Type} {p q : α → Bool}
    (himp : ∀ a, q a = true → p a = true) {x : α} :
    ∀ {l : List α}, x ∈ l → p x = true → q x = false →
      (l.filter q).length < (l.filter p).length := by
  intro l
  induction l with
  | nil => intro h; exact absurd h (List.not_mem_nil x)
  | cons a as ih =>
    intro hmem hp hq
    rcases List.mem_cons.1 hmem with rfl | hmem'
    · rw [List.filter_cons_of_pos hp, List.filter_cons_of_neg (by simp [hq])]
      exact Nat.lt_succ_of_le (length_filter_le_of_imp himp as)
    · by_cases hqa : q a = true
      · rw [List.filter_cons_of_pos hqa, List.filter_cons_of_pos (himp a hqa)]
        exact Nat.succ_lt_succ (ih hmem' hp hq)
      · rw [List.filter_cons_of_neg hqa]
        by_cases hpa : p a = true
        · rw [List.filter_cons_of_pos hpa]
          exact Nat.lt_succ_of_lt (ih hmem' hp hq)
        · rw [List.filter_cons_of_neg hpa]
          exact ih hmem' hp hq

/-- Each successful iteration strictly decreases the number of candidates
ahead of the position. -/
lemma selectStep_measure_lt {cands : List CandidateStation} {total pos fuel : ℚ}
    {stop : FuelStop} {pos' fuel' : ℚ}
    (h : selectStep cands total pos fuel = some (stop, pos', fuel')) :
    aheadCount cands pos' < aheadCount cands pos := by
  obtain ⟨b, hb, _, hpos, _⟩ := selectStep_eq_some h
  obtain ⟨hbc, hblt, _⟩ := mem_reachableStations.1 hb
  have hlt : pos < pos' := by rw [hpos]; exact hblt
  have himp : ∀ a : CandidateStation,
      decide (pos' < a.distance) = true → decide (pos < a.distance) = true := by
    intro a ha
    exact decide_eq_true (lt_trans hlt (of_decide_eq_true ha))
  have hpx : decide (pos < b.distance) = true := decide_eq_true hblt
  have hqx : decide (pos' < b.distance) = false := by
    rw [hpos]; simp
  exact length_filter_lt_of_imp himp hbc hpx hqx

/-- Once the iteration bound exceeds the number of candidates ahead of the
position, the bounded loop's result no longer depends on the bound: the
`while` loop has terminated. -/
lemma selectLoopAux_stable (cands : List CandidateStation) (total : ℚ) :
    ∀ (n m : ℕ) (pos fuel : ℚ), aheadCount cands pos < n → aheadCount cands pos < m →
      selectLoopAux cands total n pos fuel = selectLoopAux cands total m pos fuel := by
  intro n
  induction n with
  | zero => intro m pos fuel hn _; exact absurd hn (Nat.not_lt_zero _)
  | succ k ih =>
    intro m pos fuel hn hm
    cases m with
    | zero => exact absurd hm (Nat.not_lt_zero _)
    | succ j =>
      cases hstep : selectStep cands total pos fuel with
      | none => simp only [selectLoopAux, hstep]
      | some t =>
        obtain ⟨stop, pos', fuel'⟩ := t
        have hdec := selectStep_measure_lt hstep
        have h1 : aheadCount cands pos' < k :=
          lt_of_lt_of_le hdec (Nat.lt_succ_iff.1 hn)
        have h2 : aheadCount cands pos' < j :=
          lt_of_lt_of_le hdec (Nat.lt_succ_iff.1 hm)
        simp only [selectLoopAux, hstep]
        exact congrArg (List.cons stop) (ih j pos' fuel' h1 h2)

/-- The distances of the stops the loop emits form a strictly increasing
chain starting strictly after the current position. -/
lemma selectLoopAux_chain (cands : List CandidateStation) (total : ℚ) :
    ∀ (n : ℕ) (pos fuel : ℚ),
      List.Chain (· < ·) pos
        ((selectLoopAux cands total n pos fuel).map fun s => s.distance_from_start) := by
  intro n
  induction n with
  | zero => intro pos fuel; simp [selectLoopAux]
  | succ k ih =>
    intro pos fuel
    cases hstep : selectStep cands total pos fuel with
    | none => simp [selectLoopAux, hstep]
    | some t =>
      obtain ⟨stop, pos', fuel'⟩ := t
      obtain ⟨hlt, hdfs⟩ := selectStep_advance hstep
      simp only [selectLoopAux, hstep, List.map_cons]
      rw [hdfs]
      exact List.Chain.cons hlt (ih pos' fuel')

/-- A route with at least one segment yields a query box (`min()` does not
raise). -/
lemma routeQueryBox_isSome {segments : List RouteSegment} (h : segments ≠ []) :
    ∃ box, routeQueryBox segments = some box := by
  cases segments with
  | nil => exact absurd rfl h
  | cons s rest => exact ⟨_, rfl⟩

/-- A route with at least one segment always yields a candidate list
(possibly empty). -/
lemma get_candidate_stations_isSome (hDist : ℚ → ℚ → ℚ → ℚ → ℚ)
    {segments : List RouteSegment} (h : segments ≠ [])
    (stations : List FuelStation) :
    ∃ cands, get_candidate_stations hDist segments stations = some cands := by
  obtain ⟨box, hbox⟩ := routeQueryBox_isSome h
  obtain ⟨b1, b2, b3, b4⟩ := box
  unfold get_candidate_stations
  rw [hbox]
  exact ⟨_, rfl⟩

/-- C1: on the 1000-mile route with candidates at miles 100, 300, 450, 600,
850 priced 3.00, 2.50, 2.90, 2.60, 2.80, starting at position 0 with a full
50-gallon tank (range 500 mi, 10 mi/gal), the first stop selected is the
candidate at mile 300 — the cheapest inside the optimal window [300, 450] —
buying 30 gallons for a cost of 75.00. -/
theorem claim_c1_greedy_scenario_first_stop :
    ((selectStops
        [⟨⟨1, some 1, some 1, 3⟩, 100, 0, 0⟩,
         ⟨⟨2, some 1, some 1, 5/2⟩, 300, 0, 0⟩,
         ⟨⟨3, some 1, some 1, 29/10⟩, 450, 0, 0⟩,
         ⟨⟨4, some 1, some 1, 13/5⟩, 600, 0, 0⟩,
         ⟨⟨5, some 1, some 1, 14/5⟩, 850, 0, 0⟩] 1000).head?).map
      (fun s => (s.distance_from_start, s.fuel_needed, s.cost, s.station.retail_price))
      = some (300, 30, 75, 5/2) := by
  norm_num [selectStops, sortByDistance, List.insertionSort, List.orderedInsert,
    selectLoopAux, selectStep, reachableStations, optimalRangeStations, chooseBest,
    minByKey, mkStop, List.filter, VEHICLE_RANGE, MPG, TANK_SIZE]

/-- C2 counterexample: a single candidate at mile 600 of a 1000-mile route is
beyond the full-tank range 500, so `reachable` is empty on the first
iteration while a candidate strictly ahead of position 0 exists; the claimed
rescue policy would force a stop there, but the code's loop `break`s and
returns no stops at all. -/
theorem claim_c2_counterexample :
    reachableStations [⟨⟨9, some 1, some 1, 2⟩, 600, 0, 0⟩] 0 (0 + TANK_SIZE * MPG) = [] ∧
    (0 : ℚ) < (600 : ℚ) ∧
    selectStops [⟨⟨9, some 1, some 1, 2⟩, 600, 0, 0⟩] 1000 = [] := by
  refine ⟨?_, by norm_num, ?_⟩
  · norm_num [reachableStations, List.filter, TANK_SIZE, VEHICLE_RANGE, MPG]
  · norm_num [selectStops, sortByDistance, List.insertionSort, List.orderedInsert,
      selectLoopAux, selectStep, reachableStations, List.filter,
      VEHICLE_RANGE, MPG, TANK_SIZE]

/-- C2 as amended: whenever the destination is not yet reachable and no
candidate lies in the reachable interval `(position, position + fuel × MPG]`,
the stop-selection loop terminates immediately and emits no further stops —
even when candidates with larger `distance` exist (there is no rescue
policy in the code). -/
theorem claim_c2_amended_no_rescue (cands : List CandidateStation)
    (total pos fuel : ℚ) (n : ℕ)
    (h1 : pos < total) (h2 : pos + fuel * MPG < total)
    (h3 : reachableStations cands pos (pos + fuel * MPG) = []) :
    selectLoopAux cands total n pos fuel = [] := by
  have hstep : selectStep cands total pos fuel = none := by
    simp [selectStep, h3, not_le.2 h1, not_le.2 h2]
  cases n with
  | zero => rfl
  | succ k => simp only [selectLoopAux, hstep]

/-- Witness for the amended C2 at the concrete counterexample input. -/
theorem claim_c2_amended_no_rescue_witness :
    (0 : ℚ) < 1000 ∧ (0 : ℚ) + 50 * MPG < 1000 ∧
    reachableStations [⟨⟨9, some 1, some 1, 2⟩, 600, 0, 0⟩] 0 (0 + 50 * MPG) = [] ∧
    selectLoopAux [⟨⟨9, some 1, some 1, 2⟩, 600, 0, 0⟩] 1000 7 0 50 = [] :=
  ⟨by norm_num, by norm_num [MPG],
   by norm_num [reachableStations, List.filter, MPG],
   claim_c2_amended_no_rescue _ _ _ _ _ (by norm_num) (by norm_num [MPG])
     (by norm_num [reachableStations, List.filter, MPG])⟩

/-- C4: the fuel stops returned by stop selection are strictly increasing in
`distance_from_start`, and the first stop lies strictly after position 0. -/
theorem claim_c4_stops_strictly_increasing (hDist : ℚ → ℚ → ℚ → ℚ → ℚ)
    (segments : List RouteSegment) (total : ℚ) (candidates : List FuelStation) :
    List.Chain (· < ·) 0
      ((select_optimal_stops hDist segments total candidates).map
        fun s => s.distance_from_start) := by
  unfold select_optimal_stops selectStops
  exact selectLoopAux_chain _ _ _ 0 TANK_SIZE

/-- C5: the selection loop terminates — running the loop with any iteration
bound of at least `cands.length + 1` returns the same stop list as
`selectStops`, i.e. the `while` loop reaches an exit in at most
`cands.length` iterations and the algorithm is a total function. -/
theorem claim_c5_loop_terminates (cands : List CandidateStation) (total : ℚ)
    (g : ℕ) (hg : cands.length + 1 ≤ g) :
    selectLoopAux (sortByDistance cands) total g 0 TANK_SIZE =
      selectStops cands total := by
  unfold selectStops
  have hlen : aheadCount (sortByDistance cands) 0 ≤ cands.length := by
    calc aheadCount (sortByDistance cands) 0
        ≤ (sortByDistance cands).length := List.length_filter_le _ _
      _ = cands.length := by unfold sortByDistance; exact List.length_insertionSort _ _
  apply selectLoopAux_stable
  · exact lt_of_le_of_lt hlen (lt_of_lt_of_le (Nat.lt_succ_self _) hg)
  · have : (sortByDistance cands).length = cands.length := by
      unfold sortByDistance; exact List.length_insertionSort _ _
    rw [this]
    exact Nat.lt_succ_of_le hlen

/-- Witness for C5 at a concrete input. -/
theorem claim_c5_loop_terminates_witness :
    ([⟨⟨9, some 1, some 1, 2⟩, 100, 0, 0⟩] : List CandidateStation).length + 1 ≤ 5 ∧
    selectLoopAux (sortByDistance [⟨⟨9, some 1, some 1, 2⟩, 100, 0, 0⟩]) 400 5 0 TANK_SIZE =
      selectStops [⟨⟨9, some 1, some 1, 2⟩, 100, 0, 0⟩] 400 :=
  ⟨by norm_num, claim_c5_loop_terminates _ _ _ (by norm_num)⟩

/-- C3: for every route with at least one segment, `optimize` raises the
no-stations `ValueError` exactly when the filtered candidate set is empty,
and returns a result (does not raise) whenever at least one candidate lies
near the route. -/
theorem claim_c3_error_iff_no_candidates (hDist : ℚ → ℚ → ℚ → ℚ → ℚ)
    (segments : List RouteSegment) (totalDistance : ℚ)
    (stations : List FuelStation) (t0 t1 : ℚ) (hseg : segments ≠ []) :
    ∃ cands, get_candidate_stations hDist segments stations = some cands ∧
      (cands = [] ↔ optimize hDist segments totalDistance stations t0 t1 =
        Except.error "No fuel stations found near route") ∧
      (cands ≠ [] → ∃ r,
        optimize hDist segments totalDistance stations t0 t1 = Except.ok r) := by
  obtain ⟨cands, hc⟩ := get_candidate_stations_isSome hDist hseg stations
  refine ⟨cands, hc, ?_, ?_⟩
  · simp only [optimize, hc]
    by_cases hemp : cands.isEmpty = true
    · rw [if_pos hemp]
      simp [List.isEmpty_iff.1 hemp]
    · rw [if_neg hemp]
      constructor
      · intro h
        exact absurd (List.isEmpty_iff.2 h) hemp
      · intro h
        exact absurd h (by simp)
  · intro hne
    simp only [optimize, hc]
    rw [if_neg (fun h => hne (List.isEmpty_iff.1 h))]
    exact ⟨_, rfl⟩

/-- Witness for C3: a one-segment route with no stations at all — the
candidate list is empty and `optimize` raises the no-stations error. -/
theorem claim_c3_error_iff_no_candidates_witness :
    ([⟨0, 0, 1, 1, 100⟩] : List RouteSegment) ≠ [] ∧
    ∃ cands, get_candidate_stations (fun _ _ _ _ => 0) [⟨0, 0, 1, 1, 100⟩] [] = some cands ∧
      (cands = [] ↔ optimize (fun _ _ _ _ => 0) [⟨0, 0, 1, 1, 100⟩] 100 [] 3 7 =
        Except.error "No fuel stations found near route") ∧
      (cands ≠ [] → ∃ r,
        optimize (fun _ _ _ _ => 0) [⟨0, 0, 1, 1, 100⟩] 100 [] 3 7 = Except.ok r) :=
  ⟨by simp,
   claim_c3_error_iff_no_candidates (fun _ _ _ _ => 0) _ 100 [] 3 7 (by simp)⟩

/-- C6 counterexample: with a zero distance function (so the precise test
always passes), the point `(10, 10.42)` against the degenerate segment at
`(10, 10)` is rejected by the code's fixed `0.4`-degree longitude expansion
but accepted by the spec's `25/54 ≈ 0.463`-degree expansion: the code's
pre-filter is not the claimed `corridorWidth/69`–`corridorWidth/54` box. -/
theorem claim_c6_counterexample :
    is_near_route (fun _ _ _ _ => 0) [⟨10, 10, 10, 10, 0⟩] 10 (521/50) = false ∧
    is_near_route_spec 25 (fun _ _ _ _ => 0) [⟨10, 10, 10, 10, 0⟩] 10 (521/50) = true := by
  constructor
  · norm_num [is_near_route, segBBoxPass, SEARCH_CORRIDOR_WIDTH]
  · norm_num [is_near_route_spec, segBBoxPassSpec]

/-- C6 as amended: `is_near_route`'s bounding-box pre-filter expands the
segment's axis-aligned box by the fixed constant `0.4` degrees in both
latitude and longitude (not by per-axis degrees-per-mile conversions),
before the precise haversine endpoint-distance test against the 25-mile
corridor. -/
theorem claim_c6_amended_fixed_expansion (hDist : ℚ → ℚ → ℚ → ℚ → ℚ)
    (segments : List RouteSegment) (lat lng : ℚ) :
    is_near_route hDist segments lat lng = true ↔
      ∃ seg ∈ segments,
        (min seg.startLat seg.endLat - 2/5 ≤ lat ∧
         lat ≤ max seg.startLat seg.endLat + 2/5 ∧
         min seg.startLng seg.endLng - 2/5 ≤ lng ∧
         lng ≤ max seg.startLng seg.endLng + 2/5) ∧
        min (hDist lat lng seg.startLat seg.startLng)
            (hDist lat lng seg.endLat seg.endLng) ≤ 25 := by
  simp [is_near_route, segBBoxPass, SEARCH_CORRIDOR_WIDTH, List.any_eq_true,
    Bool.and_eq_true, decide_eq_true_eq, and_assoc]

/-- C7 counterexample: for the single-segment route from `(0,0)` to `(10,0)`
(latitude span 10°), the code's query box uses the fixed `0.5`-degree buffer
while the spec's formula gives `max(0.5, 1, 0) + 0.5 = 1.5` degrees; a
station at latitude `-1` is outside the code's box yet inside the spec's. -/
theorem claim_c7_counterexample :
    routeQueryBox [⟨0, 0, 10, 0, 700⟩] = some (-(1/2), 21/2, -(1/2), 1/2) ∧
    routeQueryBoxSpec [⟨0, 0, 10, 0, 700⟩] = some (-(3/2), 23/2, -(3/2), 3/2) ∧
    stationInQueryBox ⟨7, some (-1), some 0, 3⟩ (-(1/2)) (21/2) (-(1/2)) (1/2) = false ∧
    stationInQueryBox ⟨7, some (-1), some 0, 3⟩ (-(3/2)) (23/2) (-(3/2)) (3/2) = true := by
  refine ⟨?_, ?_, ?_, ?_⟩
  · norm_num [routeQueryBox, allCoords]
  · norm_num [routeQueryBoxSpec, allCoords]
  · norm_num [stationInQueryBox]
  · norm_num [stationInQueryBox]

/-- C7 as amended: the candidate pre-filter's bounding box covers all
segment endpoints expanded by the fixed buffer `0.5` degrees on each side
(it does not scale with the route's extent): every station in the candidate
list has set coordinates lying within the endpoint extremes ± 0.5°. -/
theorem claim_c7_amended_fixed_buffer (hDist : ℚ → ℚ → ℚ → ℚ → ℚ)
    (segments : List RouteSegment) (stations : List FuelStation)
    (cands : List FuelStation) (st : FuelStation)
    (h : get_candidate_stations hDist segments stations = some cands)
    (hmem : st ∈ cands) :
    ∃ c cs la ln, allCoords segments = c :: cs ∧
      st.latitude = some la ∧ st.longitude = some ln ∧
      (cs.map Prod.fst).foldl min c.1 - 1/2 ≤ la ∧
      la ≤ (cs.map Prod.fst).foldl max c.1 + 1/2 ∧
      (cs.map Prod.snd).foldl min c.2 - 1/2 ≤ ln ∧
      ln ≤ (cs.map Prod.snd).foldl max c.2 + 1/2 := by
  unfold get_candidate_stations routeQueryBox at h
  cases hcoords : allCoords segments with
  | nil => rw [hcoords] at h; exact Option.noConfusion h
  | cons c cs =>
    rw [hcoords] at h
    simp only [Option.some.injEq] at h
    subst h
    have hmem' := List.mem_of_mem_filter hmem
    have hbox := List.of_mem_filter hmem'
    unfold stationInQueryBox at hbox
    cases hla : st.latitude with
    | none => rw [hla] at hbox; exact Bool.noConfusion hbox
    | some la =>
      cases hln : st.longitude with
      | none => rw [hla, hln] at hbox; exact Bool.noConfusion hbox
      | some ln =>
        rw [hla, hln] at hbox
        simp only [Bool.and_eq_true, decide_eq_true_eq] at hbox
        exact ⟨c, cs, la, ln, rfl, rfl, rfl,
          hbox.1.1.1, hbox.1.1.2, hbox.1.2, hbox.2⟩

/-- Witness for the amended C7: a concrete route and station for which the
candidate list is non-empty and the box bounds hold. -/
theorem claim_c7_amended_fixed_buffer_witness :
    get_candidate_stations (fun _ _ _ _ => 0) [⟨0, 0, 10, 0, 700⟩]
      [⟨7, some 5, some (1/4), 3⟩] = some [⟨7, some 5, some (1/4), 3⟩] ∧
    (∃ c cs la ln, allCoords [(⟨0, 0, 10, 0, 700⟩ : RouteSegment)] = c :: cs ∧
      (⟨7, some 5, some (1/4), 3⟩ : FuelStation).latitude = some la ∧
      (⟨7, some 5, some (1/4), 3⟩ : FuelStation).longitude = some ln ∧
      (cs.map Prod.fst).foldl min c.1 - 1/2 ≤ la ∧
      la ≤ (cs.map Prod.fst).foldl max c.1 + 1/2 ∧
      (cs.map Prod.snd).foldl min c.2 - 1/2 ≤ ln ∧
      ln ≤ (cs.map Prod.snd).foldl max c.2 + 1/2) := by
  have h : get_candidate_stations (fun _ _ _ _ => 0) [⟨0, 0, 10, 0, 700⟩]
      [⟨7, some 5, some (1/4), 3⟩] = some [⟨7, some 5, some (1/4), 3⟩] := by
    norm_num [get_candidate_stations, routeQueryBox, allCoords, stationInQueryBox,
      List.filter, FuelStation.location_tuple, is_near_route, segBBoxPass,
      SEARCH_CORRIDOR_WIDTH]
  exact ⟨h, claim_c7_amended_fixed_buffer _ _ _ _ _ h (by simp)⟩

/-- C8: on a candidate list sorted ascending by distance, whichever pool the
selection uses (the optimal window or all reachable candidates), the chosen
station has the minimal price, and among price ties it is the one with the
smallest distance along the route — the stable sort plus first-minimum
selection make the choice deterministic. -/
theorem claim_c8_price_tie_break (cands : List CandidateStation)
    (pos maxR lo hi : ℚ)
    (hsorted : cands.Pairwise (fun a b => a.distance ≤ b.distance))
    (pool : List CandidateStation)
    (hpool : pool = optimalRangeStations (reachableStations cands pos maxR) lo hi ∨
             pool = reachableStations cands pos maxR)
    (c : CandidateStation)
    (hmin : minByKey (fun s => s.station.retail_price) pool = some c) :
    (∀ s ∈ pool, c.station.retail_price ≤ s.station.retail_price) ∧
    (∀ s ∈ pool, s.station.retail_price = c.station.retail_price →
      c.distance ≤ s.distance) := by
  have hpw : pool.Pairwise (fun a b => a.distance ≤ b.distance) := by
    rcases hpool with rfl | rfl
    · unfold optimalRangeStations reachableStations
      exact (hsorted.filter _).filter _
    · unfold reachableStations
      exact hsorted.filter _
  exact ⟨minByKey_le hmin, fun s hs hk => minByKey_tie hpw hmin s hs hk⟩

/-- Witness for C8: two reachable candidates tied at price 3 at miles 300 and
450; the selection picks the one at mile 300. -/
theorem claim_c8_price_tie_break_witness :
    (([⟨⟨1, some 1, some 1, 3⟩, 300, 0, 0⟩, ⟨⟨2, some 1, some 1, 3⟩, 450, 0, 0⟩] :
        List CandidateStation).Pairwise (fun a b => a.distance ≤ b.distance)) ∧
    minByKey (fun s => s.station.retail_price)
      (reachableStations
        [⟨⟨1, some 1, some 1, 3⟩, 300, 0, 0⟩, ⟨⟨2, some 1, some 1, 3⟩, 450, 0, 0⟩] 0 500)
      = some ⟨⟨1, some 1, some 1, 3⟩, 300, 0, 0⟩ ∧
    ((∀ s ∈ reachableStations
        [⟨⟨1, some 1, some 1, 3⟩, 300, 0, 0⟩, ⟨⟨2, some 1, some 1, 3⟩, 450, 0, 0⟩] 0 500,
        (⟨⟨1, some 1, some 1, 3⟩, 300, 0, 0⟩ : CandidateStation).station.retail_price ≤
          s.station.retail_price) ∧
     (∀ s ∈ reachableStations
        [⟨⟨1, some 1, some 1, 3⟩, 300, 0, 0⟩, ⟨⟨2, some 1, some 1, 3⟩, 450, 0, 0⟩] 0 500,
        s.station.retail_price =
          (⟨⟨1, some 1, some 1, 3⟩, 300, 0, 0⟩ : CandidateStation).station.retail_price →
        (⟨⟨1, some 1, some 1, 3⟩, 300, 0, 0⟩ : CandidateStation).distance ≤ s.distance)) := by
  have hs : ([⟨⟨1, some 1, some 1, 3⟩, 300, 0, 0⟩, ⟨⟨2, some 1, some 1, 3⟩, 450, 0, 0⟩] :
      List CandidateStation).Pairwise (fun a b => a.distance ≤ b.distance) := by
    norm_num [List.pairwise_cons]
  have hm : minByKey (fun s => s.station.retail_price)
      (reachableStations
        [⟨⟨1, some 1, some 1, 3⟩, 300, 0, 0⟩, ⟨⟨2, some 1, some 1, 3⟩, 450, 0, 0⟩] 0 500)
      = some ⟨⟨1, some 1, some 1, 3⟩, 300, 0, 0⟩ := by
    norm_num [reachableStations, List.filter, minByKey]
  exact ⟨hs, hm,
    claim_c8_price_tie_break _ 0 500 0 0 hs _ (Or.inr rfl) _ hm⟩

/-- C9: `optimize` is a deterministic function of the route, the station
snapshot and the distance function: two invocations differing only in their
wall-clock readings agree on the stop sequence and every aggregate total
(everything except the `computation_time` diagnostic). -/
theorem claim_c9_deterministic (hDist : ℚ → ℚ → ℚ → ℚ → ℚ)
    (segments : List RouteSegment) (totalDistance : ℚ)
    (stations : List FuelStation) (t0 t1 t0' t1' : ℚ) :
    (optimize hDist segments totalDistance stations t0 t1).map stripTime =
      (optimize hDist segments totalDistance stations t0' t1').map stripTime := by
  unfold optimize
  cases get_candidate_stations hDist segments stations with
  | none => rfl
  | some candidates =>
    by_cases hemp : candidates.isEmpty = true
    · simp only [hemp, if_true]
    · simp only [if_neg hemp]
      rfl

/-- C10: a station whose stored latitude or longitude is exactly 0 has
`location_tuple = None` (Python truthiness), so it is excluded from every
candidate list even though it passes the not-null bounding-box query
whenever its coordinates lie inside the box: a station on the equator or
prime meridian can never become a fuel stop. -/
theorem claim_c10_zero_coordinate_excluded (st : FuelStation) (la ln : ℚ)
    (hla : st.latitude = some la) (hln : st.longitude = some ln)
    (h0 : la = 0 ∨ ln = 0) :
    st.location_tuple = none ∧
    (∀ (hDist : ℚ → ℚ → ℚ → ℚ → ℚ) (segments : List RouteSegment)
       (stations : List FuelStation) (cands : List FuelStation),
        get_candidate_stations hDist segments stations = some cands → st ∉ cands) ∧
    (∀ minLat maxLat minLng maxLng : ℚ,
        minLat ≤ la → la ≤ maxLat → minLng ≤ ln → ln ≤ maxLng →
        stationInQueryBox st minLat maxLat minLng maxLng = true) := by
  have hloc : st.location_tuple = none := by
    unfold FuelStation.location_tuple
    rw [hla, hln]
    rcases h0 with rfl | rfl
    · simp
    · simp
  refine ⟨hloc, ?_, ?_⟩
  · intro hDist segments stations cands h hmem
    unfold get_candidate_stations at h
    cases hbox : routeQueryBox segments with
    | none => rw [hbox] at h; exact Option.noConfusion h
    | some box =>
      obtain ⟨b1, b2, b3, b4⟩ := box
      rw [hbox] at h
      simp only [Option.some.injEq] at h
      subst h
      have hfine := List.of_mem_filter hmem
      rw [hloc] at hfine
      exact Bool.noConfusion hfine
  · intro minLat maxLat minLng maxLng h1 h2 h3 h4
    unfold stationInQueryBox
    rw [hla, hln]
    simp [h1, h2, h3, h4]

/-- Witness for C10: a station at latitude exactly 0 (on the equator). -/
theorem claim_c10_zero_coordinate_excluded_witness :
    (⟨3, some 0, some 5, 2⟩ : FuelStation).latitude = some 0 ∧
    ((⟨3, some 0, some 5, 2⟩ : FuelStation).location_tuple = none ∧
     (∀ (hDist : ℚ → ℚ → ℚ → ℚ → ℚ) (segments : List RouteSegment)
        (stations : List FuelStation) (cands : List FuelStation),
         get_candidate_stations hDist segments stations = some cands →
         (⟨3, some 0, some 5, 2⟩ : FuelStation) ∉ cands) ∧
     (∀ minLat maxLat minLng maxLng : ℚ,
         minLat ≤ 0 → (0:ℚ) ≤ maxLat → minLng ≤ 5 → (5:ℚ) ≤ maxLng →
         stationInQueryBox ⟨3, some 0, some 5, 2⟩ minLat maxLat minLng maxLng = true)) :=
  ⟨rfl, claim_c10_zero_coordinate_excluded _ 0 5 rfl rfl (Or.inl rfl)⟩
